import Mathlib

/-!
Verification development for the location_finder repository.

Strings from the Rust source are embedded as `List Char`.  Machine integers
(`u64`, `u32`) are embedded as `Nat`; the code never exercises overflow on
them (they are dataset identifiers).  Fallible code is embedded with
`Option` (a `none` result models a Rust panic, e.g. `unwrap` on a missing
record or an out-of-bounds vector index) or `Except LocationFinderError`
(for functions returning `Result<_, LocationFinderError>`).
-/

/-! ## Character classes (Rust `char::is_ascii*` predicates, by code point) -/

/-- Rust `char::is_ascii`: code point at most 0x7F. -/
def isAsciiB (c : Char) : Bool := c.toNat ≤ 127

/-- Rust `char::is_ascii_punctuation`: U+0021..=U+002F, U+003A..=U+0040,
U+005B..=U+0060, U+007B..=U+007E.  Note that this range includes the
underscore U+005F. -/
def isAsciiPunctB (c : Char) : Bool :=
  (33 ≤ c.toNat && c.toNat ≤ 47) || (58 ≤ c.toNat && c.toNat ≤ 64) ||
  (91 ≤ c.toNat && c.toNat ≤ 96) || (123 ≤ c.toNat && c.toNat ≤ 126)

/-- Rust `char::is_ascii_control`: U+0000..=U+001F and U+007F.  Note that
tab (U+0009) and newline (U+000A) are control characters. -/
def isAsciiControlB (c : Char) : Bool := c.toNat ≤ 31 || c.toNat == 127

/-- Rust `char::is_ascii_whitespace`: space, tab, newline, form feed,
carriage return. -/
def isAsciiWsB (c : Char) : Bool :=
  c.toNat == 32 || c.toNat == 9 || c.toNat == 10 || c.toNat == 12 || c.toNat == 13

/-- ASCII letter or digit. -/
def isAsciiAlnumB (c : Char) : Bool :=
  (48 ≤ c.toNat && c.toNat ≤ 57) || (65 ≤ c.toNat && c.toNat ≤ 90) ||
  (97 ≤ c.toNat && c.toNat ≤ 122)

/-- The filter used by `normalize_location_str` in both source files:
`c.is_ascii() && !c.is_ascii_punctuation() && !c.is_ascii_control()`. -/
def keepChar (c : Char) : Bool := isAsciiB c && !isAsciiPunctB c && !isAsciiControlB c

/-- ASCII lower-casing of one character.  The source applies Rust
`str::to_lowercase` (full Unicode) to a string that the preceding filter
has already restricted to ASCII, where Unicode lower-casing coincides with
this function. -/
def toLowerChar (c : Char) : Char :=
  if 65 ≤ c.toNat ∧ c.toNat ≤ 90 then Char.ofNat (c.toNat + 32) else c

/-! ## Unicode decomposition

The source calls `.nfkd()` (Unicode Normalization Form KD, compatibility
decomposition) from the unicode_normalization crate.  We embed the
decomposition of a single character as a table that is the identity on
ASCII (as in Unicode: no ASCII character decomposes) and lists the
decompositions of the non-ASCII characters exercised in this development.
`decomposeNFD` is the canonical (Form D) counterpart, used only to state
the claim that the spec's words describe canonical decomposition. -/

/-- Compatibility (NFKD) decomposition of one character, restricted to the
characters used in this development; identity on ASCII. -/
def nfkdChar (c : Char) : List Char :=
  if c.toNat ≤ 127 then [c]
  else if c = 'ã' then ['a', Char.ofNat 0x303]
  else if c = 'é' then ['e', Char.ofNat 0x301]
  else if c = '²' then ['2']
  else if c = Char.ofNat 0xA0 then [' ']
  else [c]

/-- Canonical (NFD) decomposition of one character, restricted to the
characters used in this development; identity on ASCII.  The superscript
two and the no-break space have no canonical decomposition, so NFD leaves
them unchanged, unlike NFKD. -/
def nfdChar (c : Char) : List Char :=
  if c.toNat ≤ 127 then [c]
  else if c = 'ã' then ['a', Char.ofNat 0x303]
  else if c = 'é' then ['e', Char.ofNat 0x301]
  else [c]

/-- Decompose a whole string under NFKD. -/
def decomposeNFKD : List Char → List Char
  | [] => []
  | c :: rest => nfkdChar c ++ decomposeNFKD rest

/-- Decompose a whole string under NFD. -/
def decomposeNFD : List Char → List Char
  | [] => []
  | c :: rest => nfdChar c ++ decomposeNFD rest

/-! ## Word splitting and joining -/

/-- Worker for `splitWs`; `acc` holds the current word, reversed. -/
def splitWsGo : List Char → List Char → List (List Char)
  | [], acc => if acc.isEmpty then [] else [acc.reverse]
  | c :: rest, acc =>
    if isAsciiWsB c then
      if acc.isEmpty then splitWsGo rest [] else acc.reverse :: splitWsGo rest []
    else splitWsGo rest (c :: acc)

/-- Rust `str::split_ascii_whitespace`: the nonempty maximal runs of
non-whitespace characters. -/
def splitWs (l : List Char) : List (List Char) := splitWsGo l []

/-- Rust `Vec::join("_")` on a vector of string fragments. -/
def joinUnderscore : List (List Char) → List Char
  | [] => []
  | [w] => w
  | w :: ws => w ++ '_' :: joinUnderscore ws

/-- Rust `str::contains(needle)`: substring containment. -/
def containsSub (haystack needle : List Char) : Bool :=
  match haystack with
  | [] => needle.isEmpty
  | _ :: rest => needle.isPrefixOf haystack || containsSub rest needle

/-! ## The normalizer (`normalize_location_str`, identical in
`location_finder.rs` and `location_records_loader.rs`) -/

/-- Embeds `normalize_location_str`: NFKD-decompose, keep only characters
that are ASCII and neither ASCII punctuation nor ASCII control, split on
ASCII whitespace, join the words with underscores, lower-case. -/
def normalize_location_str (s : List Char) : List Char :=
  List.map toLowerChar
    (joinUnderscore (splitWs (List.filter keepChar (decomposeNFKD s))))

/-- Embeds `location_key`: join whichever of the three normalized
fragments are present, in city/state/country order, with underscores. -/
def location_key (city state country : Option (List Char)) : List Char :=
  let parts :=
    (match city with | some c => [c] | none => []) ++
    (match state with | some s => [s] | none => []) ++
    (match country with | some k => [k] | none => [])
  joinUnderscore parts

/-! ## Data model (`LocationCountry`, `LocationState`, `LocationCity`)

The two source files declare field-for-field identical copies of these
three record structs; they are embedded once.  `f64` fields are embedded
as `Float`; they are never read by the matching logic. -/

structure LocationCountry where
  id : Nat
  name : List Char
  iso3 : List Char
  iso2 : List Char
  numeric_code : Nat
  phone_code : List Char
  capital : List Char
  currency : List Char
  currency_name : List Char
  currency_symbol : List Char
  tld : List Char
  native : List Char
  region : List Char
  subregion : List Char
  timezones : List Char
  latitude : Float
  longitude : Float
  emoji : List Char
  emoji_u : List Char

structure LocationState where
  id : Nat
  name : List Char
  country_id : Nat
  country_code : List Char
  country_name : List Char
  state_code : List Char
  state_type : List Char
  latitude : Option Float
  longitude : Option Float

structure LocationCity where
  id : Nat
  name : List Char
  state_id : Nat
  state_code : List Char
  state_name : List Char
  country_id : Nat
  country_code : List Char
  country_name : List Char
  latitude : Option Float
  longitude : Option Float
  wiki_data_id : List Char

/-- Embeds `error.rs`: `LocationFinderError` with a CSV variant (payload
dropped) and a Loader variant. -/
inductive LocationFinderError where
  | CSV : LocationFinderError
  | Loader : LocationFinderError
deriving DecidableEq

/-- Embeds `PARTIAL_MATCH_COUNTRIES_TO_SKIP` (identical in both files):
the one-element set containing "United States". -/
def countries_to_skip : List (List Char) := ["United States".data]

/-- Embeds `PARTIAL_MATCH_COUNTRIES_TO_OVERRIDE` (identical in both
files): the one-element set containing "United Kingdom". -/
def countries_to_override : List (List Char) := ["United Kingdom".data]

namespace LocationFinder

/-- Embeds the `LocationMatchType` enum of `location_finder.rs`. -/
inductive LocationMatchType where
  | FullMatch (city state country : Nat) : LocationMatchType
  | PartialMatch (city country unmatched_state : Nat) : LocationMatchType
  | NoMatch : LocationMatchType
deriving DecidableEq

/-- The lazily-initialized static maps that `find_location` in
`location_finder.rs` reads: `CITY_NAME_MAP` (multimap from normalized key
to city ids, `get_vec` embedded as an `Option (List Nat)`-valued function)
and the three id-keyed record maps (`HashMap::get` embedded as
`Option`-valued functions). -/
structure FinderMaps where
  city_name_map : List Char → Option (List Nat)
  city_id_map : Nat → Option LocationCity
  state_id_map : Nat → Option LocationState
  country_id_map : Nat → Option LocationCountry

/-- Embeds the Tier-1 body of `find_location` (`location_finder.rs`
lines 436-447): fetch the first candidate's records (each `unwrap` is a
possible panic, embedded as `none`) and return a FullMatch built from the
city record's id and the fetched state and country records' ids. -/
def tier1_result (m : FinderMaps) (city_id : Nat) : Option LocationMatchType :=
  match m.city_id_map city_id with
  | none => none
  | some city_record =>
    match m.state_id_map city_record.state_id with
    | none => none
    | some state_record =>
      match m.country_id_map city_record.country_id with
      | none => none
      | some country_record =>
        some (.FullMatch city_record.id state_record.id country_record.id)

/-- Embeds the Tier-2 candidate loop of `find_location`
(`location_finder.rs` lines 455-498), including the trailing
"exactly one collected partial match" check: for each candidate, skip-list
discard, override-list FullMatch, substring FullMatch, else record a
PartialMatch; at the end return the single collected PartialMatch, or
NoMatch otherwise. -/
def tier2_scan (m : FinderMaps) (state : List Char) :
    List Nat → List LocationMatchType → Option LocationMatchType
  | [], partial_matches =>
    match partial_matches with
    | [p] => some p
    | _ => some .NoMatch
  | city_id :: rest, partial_matches =>
    match m.city_id_map city_id with
    | none => none
    | some city_record =>
      match m.country_id_map city_record.country_id with
      | none => none
      | some country_record =>
        if countries_to_skip.contains country_record.name then
          tier2_scan m state rest partial_matches
        else if countries_to_override.contains country_record.name then
          some (.FullMatch city_record.id city_record.state_id city_record.country_id)
        else
          match m.state_id_map city_record.state_id with
          | none => none
          | some unmatched_state_record =>
            let unmatched_state_name := normalize_location_str unmatched_state_record.name
            if containsSub unmatched_state_name state || containsSub state unmatched_state_name then
              some (.FullMatch city_record.id city_record.state_id city_record.country_id)
            else
              tier2_scan m state rest
                (partial_matches ++
                  [.PartialMatch city_record.id city_record.country_id city_record.state_id])

/-- Embeds `find_location` of `location_finder.rs`: normalize the three
inputs; Tier 1 looks up the full city+state+country key and returns a
FullMatch from the first candidate; otherwise Tier 2 looks up the
city+country key and scans its candidates; otherwise NoMatch.  A `none`
result models a panic inside the lookups (the Rust function's `Result` is
always `Ok`). -/
def find_location (m : FinderMaps) (city_in state_in country_in : List Char) :
    Option LocationMatchType :=
  let city := normalize_location_str city_in
  let state := normalize_location_str state_in
  let country := normalize_location_str country_in
  match m.city_name_map (location_key (some city) (some state) (some country)) with
  | some (city_id :: _) => tier1_result m city_id
  | _ =>
    match m.city_name_map (location_key (some city) none (some country)) with
    | some city_name_matches => tier2_scan m state city_name_matches []
    | none => some .NoMatch

/-- The Tier-1 lookup finds no candidate: the full key is absent from the
multimap or maps to an empty vector. -/
def Tier1Miss (m : FinderMaps) (city_in state_in country_in : List Char) : Prop :=
  m.city_name_map (location_key (some (normalize_location_str city_in))
      (some (normalize_location_str state_in))
      (some (normalize_location_str country_in))) = none ∨
  m.city_name_map (location_key (some (normalize_location_str city_in))
      (some (normalize_location_str state_in))
      (some (normalize_location_str country_in))) = some []

/-- The Tier-2 lookup key: city+country, state omitted. -/
def tier2_key (city_in country_in : List Char) : List Char :=
  location_key (some (normalize_location_str city_in)) none
    (some (normalize_location_str country_in))

/-- A Tier-2 candidate whose country record is in the skip-list: the scan
discards it before applying any other rule. -/
def IsSkipped (m : FinderMaps) (city_id : Nat) : Prop :=
  ∃ cr kr, m.city_id_map city_id = some cr ∧
    m.country_id_map cr.country_id = some kr ∧
    countries_to_skip.contains kr.name = true

/-- A Tier-2 candidate that the scan records as a partial-match candidate:
its records resolve, its country is in neither the skip-list nor the
override-list, and the normalized input state and the candidate's
normalized canonical state name are not substrings of one another. -/
def IsPartialCand (m : FinderMaps) (state : List Char) (city_id : Nat) : Prop :=
  ∃ cr kr sr, m.city_id_map city_id = some cr ∧
    m.country_id_map cr.country_id = some kr ∧
    countries_to_skip.contains kr.name = false ∧
    countries_to_override.contains kr.name = false ∧
    m.state_id_map cr.state_id = some sr ∧
    containsSub (normalize_location_str sr.name) state = false ∧
    containsSub state (normalize_location_str sr.name) = false

end LocationFinder

namespace LocationRecordsLoader

/-- Embeds the `LocationMatchType` enum of `location_records_loader.rs`
(whose partial variant is named `CityCountryMatch`). -/
inductive LocationMatchType where
  | FullMatch (city state country : Nat) : LocationMatchType
  | CityCountryMatch (city country unmatched_state : Nat) : LocationMatchType
  | NoMatch : LocationMatchType
deriving DecidableEq

/-- Embeds the `state_names_vec` literal inside
`init_partial_match_state_names` (`location_records_loader.rs` lines
211-257): the base list of state-name alias pairs. -/
def state_names_vec : List (List Char × List Char) := [
  ("lombardia".data, "lombardy".data),
  ("toscana".data, "tuscany".data),
  ("piemonte".data, "piedmont".data),
  ("sardegna".data, "sardinia".data),
  ("sicilia".data, "sicily".data),
  ("puglia".data, "apulia".data),
  ("trentinoalto_adige".data, "trentinosouth_tyrol".data),
  ("bayern".data, "bavaria".data),
  ("sachsen".data, "saxony".data),
  ("niedersachsen".data, "lower_saxony".data),
  ("rheinlandpfalz".data, "rhinelandpalatinate".data),
  ("nordrheinwestfalen".data, "north_rhinewestphalia".data),
  ("catalonia".data, "barcelona".data),
  ("pais_vasco".data, "gipuzkoa".data),
  ("pais_vasco".data, "bizkaia".data),
  ("galicia".data, "pontevedra".data),
  ("galicia".data, "a_coruna".data),
  ("andalucia".data, "sevilla".data),
  ("stockholms_lan".data, "stockholm_county".data),
  ("skane_lan".data, "skane_county".data),
  ("kalmar_lan".data, "kalmar_county".data),
  ("vasternorrlands_lan".data, "vasternorrland_county".data),
  ("vasterbottens_lan".data, "vasterbotten_county".data),
  ("uppsala_lan".data, "uppsala_county".data),
  ("norrbottens_lan".data, "norrbotten_county".data),
  ("hallands_lan".data, "halland_county".data),
  ("ostergotlands_lan".data, "ostergotland_county".data),
  ("dalarnas_lan".data, "dalarna_county".data),
  ("vastmanlands_lan".data, "vastmanland_county".data),
  ("varmlands_lan".data, "varmland_county".data),
  ("sodermanlands_lan".data, "sodermanland_county".data),
  ("kronobergs_lan".data, "skane_county".data),
  ("gotlands_lan".data, "gotland_county".data),
  ("wien".data, "vienna".data),
  ("geneve".data, "geneva".data),
  ("nordpasdecalais".data, "hautsdefrance".data),
  ("midipyrenees".data, "occitanie".data),
  ("languedocroussillon".data, "occitanie".data),
  ("provencealpescote_dazur".data, "provencealpescotedazur".data),
  ("pays_de_la_loire".data, "paysdelaloire".data),
  ("andhra_pradesh".data, "telangana".data),
  ("hamerkaz".data, "central_district".data),
  ("al_qahirah".data, "cairo".data),
  ("adis_abeba".data, "addis_ababa".data),
  ("na_south_africa".data, "gauteng".data)]

/-- Embeds `init_partial_match_state_names`: for every pair of
`state_names_vec`, insert the pair and its swap into the set (the `HashSet`
is embedded as a list; only membership is ever consulted). -/
def partial_match_state_names : List (List Char × List Char) :=
  state_names_vec.foldl (fun s p => (p.1, p.2) :: (p.2, p.1) :: s) []

/-- The four `OnceLock` statics that `find_location` in
`location_records_loader.rs` reads.  `OnceLock::get` is embedded as the
outer `Option` (`none` models a never-initialized static); the name maps
are multimaps from a normalized single name to the records carrying it. -/
structure LoaderState where
  city_name_map : Option (List Char → Option (List LocationCity))
  state_name_map : Option (List Char → Option (List LocationState))
  country_name_map : Option (List Char → Option (List LocationCountry))
  state_id_map : Option (Nat → Option LocationState)

/-- Embeds `find_state_by_id`: error if `STATE_ID_MAP` was never
initialized, otherwise the optional record. -/
def find_state_by_id (st : LoaderState) (state_id : Nat) :
    Except LocationFinderError (Option LocationState) :=
  match st.state_id_map with
  | none => .error .Loader
  | some m => .ok (m state_id)

/-- Embeds the Tier-1 triple loop of `find_location`
(`location_records_loader.rs` lines 286-306): the first
city/state/country record triple whose ids are mutually consistent wins. -/
def tier1_find (city_name_matches : List LocationCity)
    (state_name_matches : Option (List LocationState))
    (country_name_matches : Option (List LocationCountry)) : Option LocationMatchType :=
  city_name_matches.findSome? fun city =>
    match state_name_matches with
    | none => none
    | some states =>
      states.findSome? fun state =>
        match country_name_matches with
        | none => none
        | some countries =>
          countries.findSome? fun country =>
            if city.state_id = state.id ∧ city.country_id = country.id ∧
                state.country_id = country.id then
              some (.FullMatch city.id state.id country.id)
            else none

/-- Embeds the body of the Tier-2 inner (per city, per country) loop of
`find_location` (`location_records_loader.rs` lines 310-368): skip-list
`continue`, then for a city/country id match: override-list FullMatch,
substring FullMatch, alias-table FullMatch, else an immediate
CityCountryMatch.  `.ok none` models `continue`. -/
def tier2_step (st : LoaderState) (state : List Char) (city : LocationCity)
    (country : LocationCountry) : Except LocationFinderError (Option LocationMatchType) :=
  if countries_to_skip.contains country.name then .ok none
  else if city.country_id = country.id then
    if countries_to_override.contains country.name then
      .ok (some (.FullMatch city.id city.state_id country.id))
    else
      match find_state_by_id st city.state_id with
      | .error e => .error e
      | .ok (some unmatched_location_state) =>
        let unmatched_state_name := normalize_location_str unmatched_location_state.name
        if containsSub unmatched_state_name state || containsSub state unmatched_state_name then
          .ok (some (.FullMatch city.id city.state_id country.id))
        else if (state, unmatched_state_name) ∈ partial_match_state_names then
          .ok (some (.FullMatch city.id city.state_id country.id))
        else
          .ok (some (.CityCountryMatch city.id country.id city.state_id))
      | .ok none => .ok (some (.CityCountryMatch city.id country.id city.state_id))
  else .ok none

/-- The Tier-2 country loop for a fixed city. -/
def tier2_countries (st : LoaderState) (state : List Char) (city : LocationCity) :
    List LocationCountry → Except LocationFinderError (Option LocationMatchType)
  | [] => .ok none
  | country :: rest =>
    match tier2_step st state city country with
    | .error e => .error e
    | .ok (some result) => .ok (some result)
    | .ok none => tier2_countries st state city rest

/-- The Tier-2 city loop. -/
def tier2_cities (st : LoaderState) (state : List Char)
    (country_name_matches : Option (List LocationCountry)) :
    List LocationCity → Except LocationFinderError (Option LocationMatchType)
  | [] => .ok none
  | city :: rest =>
    match country_name_matches with
    | none => tier2_cities st state country_name_matches rest
    | some countries =>
      match tier2_countries st state city countries with
      | .error e => .error e
      | .ok (some result) => .ok (some result)
      | .ok none => tier2_cities st state country_name_matches rest

/-- Embeds `find_location` of `location_records_loader.rs`: the three name
maps are fetched up front with `ok_or(Loader)` (error if any is
uninitialized); candidates under the normalized city name then flow
through the Tier-1 triple loop and the Tier-2 loops. -/
def find_location (st : LoaderState) (city_in state_in country_in : List Char) :
    Except LocationFinderError LocationMatchType :=
  let city := normalize_location_str city_in
  let state := normalize_location_str state_in
  let country := normalize_location_str country_in
  match st.city_name_map with
  | none => .error .Loader
  | some city_map =>
    match st.state_name_map with
    | none => .error .Loader
    | some state_map =>
      match st.country_name_map with
      | none => .error .Loader
      | some country_map =>
        match city_map city with
        | none => .ok .NoMatch
        | some city_name_matches =>
          match tier1_find city_name_matches (state_map state) (country_map country) with
          | some result => .ok result
          | none =>
            match tier2_cities st state (country_map country) city_name_matches with
            | .error e => .error e
            | .ok (some result) => .ok result
            | .ok none => .ok .NoMatch

/-- Lookup in an association list embedding `HashMap<u64, T>::get`. -/
def mapLookup {α : Type} : List (Nat × α) → Nat → Option α
  | [], _ => none
  | (k, v) :: rest, key => if key = k then some v else mapLookup rest key

/-- Embeds the row loop of `load_records` (`location_records_loader.rs`
lines 134-151).  A row is `none` when CSV deserialization failed (the code
logs and skips it); otherwise the record is inserted into the id map
(`HashMap::insert` returning the previous value) and the load aborts with
`Err(Loader)` on a duplicate id, else the record is also appended to the
name multimap (embedded as an association list in insertion order). -/
def load_records_loop {α : Type} (idOf : α → Nat) (nameOf : α → List Char) :
    List (Option α) → List (Nat × α) → List (List Char × α) →
    Except LocationFinderError (List (Nat × α) × List (List Char × α))
  | [], id_map, name_map => .ok (id_map, name_map)
  | none :: rest, id_map, name_map => load_records_loop idOf nameOf rest id_map name_map
  | some location_record :: rest, id_map, name_map =>
    let prev_record := mapLookup id_map (idOf location_record)
    if prev_record.isSome then .error .Loader
    else
      load_records_loop idOf nameOf rest ((idOf location_record, location_record) :: id_map)
        (name_map ++ [(normalize_location_str (nameOf location_record), location_record)])

/-- Embeds `load_records`: run the row loop on a private pair of maps and
only then publish them into the `OnceLock` statics (whose prior contents
are the last two arguments; `OnceLock::set` fails if already set).
Returns the `Result` together with the statics after the call. -/
def load_records {α : Type} (idOf : α → Nat) (nameOf : α → List Char)
    (rows : List (Option α)) (static_id_map : Option (List (Nat × α)))
    (static_name_map : Option (List (List Char × α))) :
    Except LocationFinderError Unit × Option (List (Nat × α)) × Option (List (List Char × α)) :=
  match load_records_loop idOf nameOf rows [] [] with
  | .error e => (.error e, static_id_map, static_name_map)
  | .ok (id_map, name_map) =>
    match static_id_map with
    | some old => (.error .Loader, some old, static_name_map)
    | none =>
      match static_name_map with
      | some old => (.error .Loader, some id_map, some old)
      | none => (.ok (), some id_map, some name_map)

end LocationRecordsLoader

/-! ## Key Index Builder (`init_city_name_map` of `location_finder.rs`) -/

/-- Worker for `splitOnComma`; `acc` holds the current field, reversed. -/
def splitOnCommaGo : List Char → List Char → List (List Char)
  | [], acc => [acc.reverse]
  | c :: rest, acc =>
    if c = ',' then acc.reverse :: splitOnCommaGo rest []
    else splitOnCommaGo rest (c :: acc)

/-- Rust `str::split(',')`: at least one field, empty fields kept. -/
def splitOnComma (l : List Char) : List (List Char) := splitOnCommaGo l []

/-- Strip leading ASCII whitespace. -/
def trimLeft : List Char → List Char
  | [] => []
  | c :: rest => if isAsciiWsB c then trimLeft rest else c :: rest

/-- Rust `str::trim` (the alias file is ASCII, where Unicode and ASCII
whitespace trimming coincide). -/
def trimWs (l : List Char) : List Char := (trimLeft (trimLeft l).reverse).reverse

/-- Embeds `line.split(',').map(s.trim()).collect::<Vec<_>>()` as used on
alias alternate names. -/
def splitOnCommaTrim (l : List Char) : List (List Char) := (splitOnComma l).map trimWs

namespace LocationFinder

/-- The dataset backing the lazily-initialized statics that
`init_city_name_map` reads: the values of `CITY_ID_MAP` (in iteration
order), the id-keyed state and country maps, and `PLACE_ALIAS_MAP`
(`MultiMap::get_vec` embedded as an `Option (List _)`-valued function). -/
structure FinderData where
  cities : List LocationCity
  state_by_id : Nat → Option LocationState
  country_by_id : Nat → Option LocationCountry
  place_alias_map : List Char → Option (List (List Char))

/-- Embeds the `format!` lookup key of `find_alias_city_names`:
`"{cityName}, {stateName}, {countryName}"`. -/
def city_alias_lookup_key (city_record : LocationCity) : List Char :=
  city_record.name ++ ", ".data ++ city_record.state_name ++ ", ".data ++
    city_record.country_name

/-- Embeds the `format!` lookup key of `find_alias_state_names`:
`"{stateName}, {countryName}"`. -/
def state_alias_lookup_key (state_record : LocationState) : List Char :=
  state_record.name ++ ", ".data ++ state_record.country_name

/-- Embeds `list_city_location_keys`: the seven per-city key variants
(name+state+country, name+country, name+stateCode+country,
name+stateCode+iso2, name+iso2, name+stateCode+iso3, name+iso3), with the
city and state names optionally replaced by alias values.  The two
`unwrap`s on the state and country lookups are embedded as `none`. -/
def list_city_location_keys (d : FinderData) (city_record : LocationCity)
    (city_alias state_alias : Option (List Char)) : Option (List (List Char)) :=
  let city_name := normalize_location_str (city_alias.getD city_record.name)
  let state_name := normalize_location_str (state_alias.getD city_record.state_name)
  let country_name := normalize_location_str city_record.country_name
  match d.state_by_id city_record.state_id with
  | none => none
  | some state_record =>
    let state_code := normalize_location_str state_record.state_code
    match d.country_by_id city_record.country_id with
    | none => none
    | some country_record =>
      let country_code_iso2 := normalize_location_str country_record.iso2
      let country_code_iso3 := normalize_location_str country_record.iso3
      some [location_key (some city_name) (some state_name) (some country_name),
        location_key (some city_name) none (some country_name),
        location_key (some city_name) (some state_code) (some country_name),
        location_key (some city_name) (some state_code) (some country_code_iso2),
        location_key (some city_name) none (some country_code_iso2),
        location_key (some city_name) (some state_code) (some country_code_iso3),
        location_key (some city_name) none (some country_code_iso3)]

/-- A `HashSet<String>` receiving a batch of insertions, embedded as a
duplicate-free list in first-insertion order. -/
def insertAllDedup (s : List (List Char)) (keys : List (List Char)) : List (List Char) :=
  keys.foldl (fun s k => if k ∈ s then s else s ++ [k]) s

/-- Embeds one iteration of the city-alias loop of `init_city_name_map`
(`location_finder.rs` lines 286-310): split the alternate name on commas;
the condition on line 289 reads `name_vec[0]` and (short-circuit
permitting) `name_vec[1]`, and line 296 reads `name_vec[1]`
unconditionally; each out-of-bounds vector read is a panic (`none`). -/
def process_city_alias (d : FinderData) (city_record : LocationCity)
    (s : List (List Char)) (alias_place_name : List Char) : Option (List (List Char)) :=
  let name_vec := splitOnCommaTrim alias_place_name
  match name_vec.get? 0 with
  | none => none
  | some v0 =>
    let step1 : Option (List (List Char)) :=
      if city_record.name ≠ v0 then
        match name_vec.get? 1 with
        | none => none
        | some v1 =>
          if city_record.state_name ≠ v1 then
            match list_city_location_keys d city_record (some v0) (some v1) with
            | none => none
            | some keys => some (insertAllDedup s keys)
          else some s
      else some s
    match step1 with
    | none => none
    | some s1 =>
      match name_vec.get? 1 with
      | none => none
      | some v1 =>
        let step2 : Option (List (List Char)) :=
          if city_record.state_name ≠ v1 then
            match list_city_location_keys d city_record none (some v1) with
            | none => none
            | some keys => some (insertAllDedup s1 keys)
          else some s1
        match step2 with
        | none => none
        | some s2 =>
          if city_record.name ≠ v0 then
            match list_city_location_keys d city_record (some v0) none with
            | none => none
            | some keys => some (insertAllDedup s2 keys)
          else some s2

/-- Embeds one iteration of the state-alias loop of `init_city_name_map`
(`location_finder.rs` lines 314-326): only `name_vec[0]` is read. -/
def process_state_alias (d : FinderData) (city_record : LocationCity)
    (state_record : LocationState) (s : List (List Char)) (alias_place_name : List Char) :
    Option (List (List Char)) :=
  let name_vec := splitOnCommaTrim alias_place_name
  match name_vec.get? 0 with
  | none => none
  | some v0 =>
    if state_record.name ≠ v0 then
      match list_city_location_keys d city_record none (some v0) with
      | none => none
      | some keys => some (insertAllDedup s keys)
    else some s

/-- Embeds the per-city body of the fold in `init_city_name_map`: the base
key variants, the city-alias loop, the state lookup (line 313 `unwrap`),
and the state-alias loop, producing the city's deduplicated key set. -/
def process_city (d : FinderData) (city_record : LocationCity) :
    Option (List (List Char)) :=
  match list_city_location_keys d city_record none none with
  | none => none
  | some base_keys =>
    let location_keys_set := insertAllDedup [] base_keys
    let after_city_aliases : Option (List (List Char)) :=
      match d.place_alias_map (city_alias_lookup_key city_record) with
      | some alias_place_names =>
        alias_place_names.foldlM (fun s a => process_city_alias d city_record s a)
          location_keys_set
      | none => some location_keys_set
    match after_city_aliases with
    | none => none
    | some s1 =>
      match d.state_by_id city_record.state_id with
      | none => none
      | some state_record =>
        match d.place_alias_map (state_alias_lookup_key state_record) with
        | some alias_place_names =>
          alias_place_names.foldlM (fun s a => process_state_alias d city_record state_record s a) s1
        | none => some s1

/-- Embeds `init_city_name_map`: fold over the city records, inserting
`(key, city id)` into the multimap (an association list in insertion
order) for every key in the city's key set.  A `none` result models a
panic during construction. -/
def init_city_name_map (d : FinderData) : Option (List (List Char × Nat)) :=
  d.cities.foldlM
    (fun city_name_map city_record =>
      match process_city d city_record with
      | none => none
      | some location_keys_set =>
        some (location_keys_set.foldl (fun m k => m ++ [(k, city_record.id)]) city_name_map))
    []

end LocationFinder

/-! ## Further definitions used by the claims -/

/-- Characters that can appear in the output of the normalizer: lowercase
ASCII letters, ASCII digits, and the underscore. -/
def isOutChar (c : Char) : Bool :=
  (48 ≤ c.toNat && c.toNat ≤ 57) || (97 ≤ c.toNat && c.toNat ≤ 122) || c.toNat == 95

/-- Modelled from the spec's words describing the normalizer (spec section
4.1): Unicode-decompose in canonical decomposition form, drop every
character that is not a plain ASCII letter or digit (whitespace is read
charitably as retained, since the next step collapses whitespace runs into
word boundaries), join the words with underscores, lower-case.  Used only
to compare the spec's description against `normalize_location_str`. -/
def normalize_claimed (s : List Char) : List Char :=
  List.map toLowerChar
    (joinUnderscore (splitWs (List.filter (fun c => isAsciiAlnumB c || isAsciiWsB c)
      (decomposeNFD s))))

/-- The amended description of the normalizer: compatibility (NFKD)
decomposition; keep exactly the ASCII letters, digits, and spaces (ASCII
tab, newline, form feed and carriage return are control characters and are
dropped before word splitting); split into words on the remaining spaces;
lower-case each word; join with underscores. -/
def normalize_amended (s : List Char) : List Char :=
  joinUnderscore
    ((splitWs (List.filter (fun c => isAsciiAlnumB c || c == ' ') (decomposeNFKD s))).map
      (List.map toLowerChar))

/-- The PartialMatch value that the Tier-2 scan of `location_finder.rs`
records for a candidate city id (junk `NoMatch` if the city id does not
resolve; the claims only use it when it does). -/
def LocationFinder.partialOf (m : LocationFinder.FinderMaps) (city_id : Nat) :
    LocationFinder.LocationMatchType :=
  match m.city_id_map city_id with
  | some city_record =>
    .PartialMatch city_record.id city_record.country_id city_record.state_id
  | none => .NoMatch

/-! ## Concrete sample data instantiating the theorems -/

/-- Sample country record; fields not read by the matcher are defaulted. -/
def mkCountry (i : Nat) (nm is3 is2 : List Char) : LocationCountry :=
  { id := i, name := nm, iso3 := is3, iso2 := is2, numeric_code := 0,
    phone_code := [], capital := [], currency := [], currency_name := [],
    currency_symbol := [], tld := [], native := [], region := [], subregion := [],
    timezones := [], latitude := 0.0, longitude := 0.0, emoji := [], emoji_u := [] }

/-- Sample state record. -/
def mkState (i : Nat) (nm : List Char) (cid : Nat) (cnm code : List Char) : LocationState :=
  { id := i, name := nm, country_id := cid, country_code := [], country_name := cnm,
    state_code := code, state_type := [], latitude := none, longitude := none }

/-- Sample city record. -/
def mkCity (i : Nat) (nm : List Char) (sid : Nat) (snm : List Char) (cid : Nat)
    (cnm : List Char) : LocationCity :=
  { id := i, name := nm, state_id := sid, state_code := [], state_name := snm,
    country_id := cid, country_code := [], country_name := cnm,
    latitude := none, longitude := none, wiki_data_id := [] }

def witIT : LocationCountry := mkCountry 3 "Italy".data "ITA".data "IT".data

def witUSc : LocationCountry := mkCountry 1 "United States".data "USA".data "US".data

def witUK : LocationCountry := mkCountry 2 "United Kingdom".data "GBR".data "GB".data

def witIndia : LocationCountry := mkCountry 4 "India".data "IND".data "IN".data

def witLombardia : LocationState := mkState 20 "Lombardia".data 3 "Italy".data "25".data

def witPiemonte : LocationState := mkState 21 "Piemonte".data 3 "Italy".data "21".data

def witEngland : LocationState := mkState 22 "England".data 2 "United Kingdom".data "ENG".data

def witTexas : LocationState := mkState 23 "Texas".data 1 "United States".data "TX".data

def witMaharashtra : LocationState := mkState 24 "Maharashtra".data 4 "India".data "MH".data

def witCityA : LocationCity := mkCity 101 "Duplicate".data 20 "Lombardia".data 3 "Italy".data

def witCityB : LocationCity := mkCity 102 "Duplicate".data 21 "Piemonte".data 3 "Italy".data

def witCityUS : LocationCity :=
  mkCity 103 "Somecity".data 23 "Texas".data 1 "United States".data

def witCityUK : LocationCity := mkCity 104 "York".data 22 "England".data 2 "United Kingdom".data

def witMilan : LocationCity := mkCity 105 "Milan".data 20 "Lombardia".data 3 "Italy".data

def witMumbai : LocationCity := mkCity 106 "Mumbai".data 24 "Maharashtra".data 4 "India".data

/-- Sample finder maps with two same-named Italian cities in different
states, reachable under the Tier-2 key for ("Duplicate", "Italy"). -/
def mW1 : LocationFinder.FinderMaps :=
  { city_name_map := fun key =>
      if key = LocationFinder.tier2_key "Duplicate".data "Italy".data then some [101, 102]
      else none,
    city_id_map := fun i =>
      if i = 101 then some witCityA else if i = 102 then some witCityB else none,
    state_id_map := fun i =>
      if i = 20 then some witLombardia else if i = 21 then some witPiemonte else none,
    country_id_map := fun i => if i = 3 then some witIT else none }

/-- Sample finder maps with a single United States city under the Tier-2
key for ("Somecity", "United States"). -/
def mW3 : LocationFinder.FinderMaps :=
  { city_name_map := fun key =>
      if key = LocationFinder.tier2_key "Somecity".data "United States".data then some [103]
      else none,
    city_id_map := fun i => if i = 103 then some witCityUS else none,
    state_id_map := fun i => if i = 23 then some witTexas else none,
    country_id_map := fun i => if i = 1 then some witUSc else none }

/-- Sample finder maps with a single United Kingdom city under the Tier-2
key for ("York", "United Kingdom"). -/
def mW4 : LocationFinder.FinderMaps :=
  { city_name_map := fun key =>
      if key = LocationFinder.tier2_key "York".data "United Kingdom".data then some [104]
      else none,
    city_id_map := fun i => if i = 104 then some witCityUK else none,
    state_id_map := fun i => if i = 22 then some witEngland else none,
    country_id_map := fun i => if i = 2 then some witUK else none }

/-- Sample loader state whose statics are all initialized; only the state
id map is consulted by the Tier-2 step under test. -/
def stW6 : LocationRecordsLoader.LoaderState :=
  { city_name_map := some fun _ => none,
    state_name_map := some fun _ => none,
    country_name_map := some fun _ => none,
    state_id_map := some fun i => if i = 20 then some witLombardia else none }

/-- Sample loader state with no static initialized (the dataset was never
loaded). -/
def stW7 : LocationRecordsLoader.LoaderState :=
  { city_name_map := none, state_name_map := none, country_name_map := none,
    state_id_map := none }

/-- Sample finder dataset whose only city carries a city-level alias
without a comma. -/
def dW9 : LocationFinder.FinderData :=
  { cities := [witMumbai],
    state_by_id := fun i => if i = 24 then some witMaharashtra else none,
    country_by_id := fun i => if i = 4 then some witIndia else none,
    place_alias_map := fun key =>
      if key = LocationFinder.city_alias_lookup_key witMumbai then some ["Bombay".data]
      else none }

/-! ## Facts about the string layer -/

theorem toNat_ofNat_lt {n : Nat} (h : n < 55296) : (Char.ofNat n).toNat = n := by
  have hv : n.isValidChar := Or.inl h
  simp only [Char.ofNat, hv, dif_pos, Char.ofNatAux, Char.toNat, UInt32.toNat]
  simp [BitVec.toNat_ofNat]

theorem toNat_toLowerChar (c : Char) :
    (toLowerChar c).toNat =
      if 65 ≤ c.toNat ∧ c.toNat ≤ 90 then c.toNat + 32 else c.toNat := by
  unfold toLowerChar
  by_cases h : 65 ≤ c.toNat ∧ c.toNat ≤ 90
  · rw [if_pos h, if_pos h, toNat_ofNat_lt (by omega)]
  · rw [if_neg h, if_neg h]

theorem toLowerChar_eq_self_of_not_upper (c : Char)
    (h : ¬(65 ≤ c.toNat ∧ c.toNat ≤ 90)) : toLowerChar c = c := by
  unfold toLowerChar
  rw [if_neg h]

theorem char_eq_of_toNat {c d : Char} (h : c.toNat = d.toNat) : c = d :=
  Char.ext (UInt32.ext h)

theorem char_eq_space_iff (c : Char) : (c = ' ') ↔ c.toNat = 32 :=
  ⟨fun h => h ▸ rfl, fun h => char_eq_of_toNat (by rw [h]; rfl)⟩

theorem splitWsGo_chars : ∀ (l acc : List Char),
    (∀ c ∈ acc, isAsciiWsB c = false) →
    ∀ w ∈ splitWsGo l acc, ∀ c ∈ w, (c ∈ l ∨ c ∈ acc) ∧ isAsciiWsB c = false := by
  intro l
  induction l with
  | nil =>
    intro acc hacc w hw c hc
    simp only [splitWsGo] at hw
    split at hw
    · simp at hw
    · simp at hw
      subst hw
      simp at hc
      exact ⟨Or.inr hc, hacc c hc⟩
  | cons c0 rest ih =>
    intro acc hacc w hw c hc
    simp only [splitWsGo] at hw
    by_cases hws : isAsciiWsB c0
    · rw [if_pos hws] at hw
      by_cases hemp : acc.isEmpty
      · rw [if_pos hemp] at hw
        have := ih [] (by simp) w hw c hc
        rcases this with ⟨h1 | h1, h2⟩
        · exact ⟨Or.inl (List.mem_cons_of_mem _ h1), h2⟩
        · simp at h1
      · rw [if_neg hemp] at hw
        rcases List.mem_cons.mp hw with hw | hw
        · subst hw
          simp at hc
          exact ⟨Or.inr hc, hacc c hc⟩
        · have := ih [] (by simp) w hw c hc
          rcases this with ⟨h1 | h1, h2⟩
          · exact ⟨Or.inl (List.mem_cons_of_mem _ h1), h2⟩
          · simp at h1
    · rw [if_neg hws] at hw
      have hacc' : ∀ x ∈ c0 :: acc, isAsciiWsB x = false := by
        intro x hx
        rcases List.mem_cons.mp hx with hx | hx
        · subst hx; exact Bool.eq_false_iff.mpr hws
        · exact hacc x hx
      have := ih (c0 :: acc) hacc' w hw c hc
      rcases this with ⟨h1 | h1, h2⟩
      · exact ⟨Or.inl (List.mem_cons_of_mem _ h1), h2⟩
      · rcases List.mem_cons.mp h1 with h1 | h1
        · exact ⟨Or.inl (by simp [h1]), h2⟩
        · exact ⟨Or.inr h1, h2⟩

theorem joinUnderscore_chars : ∀ (ws : List (List Char)) (c : Char),
    c ∈ joinUnderscore ws → (∃ w ∈ ws, c ∈ w) ∨ c = '_' := by
  intro ws
  induction ws with
  | nil => intro c hc; simp [joinUnderscore] at hc
  | cons w ws ih =>
    intro c hc
    match ws with
    | [] =>
      simp only [joinUnderscore] at hc
      exact Or.inl ⟨w, by simp, hc⟩
    | w' :: t =>
      simp only [joinUnderscore] at hc
      rw [List.mem_append] at hc
      rcases hc with hc | hc
      · exact Or.inl ⟨w, by simp, hc⟩
      · rcases List.mem_cons.mp hc with hc | hc
        · exact Or.inr hc
        · rcases ih c hc with ⟨u, hu, hcu⟩ | h
          · exact Or.inl ⟨u, List.mem_cons_of_mem _ hu, hcu⟩
          · exact Or.inr h

theorem splitWsGo_no_ws : ∀ (l acc : List Char), (∀ c ∈ l, isAsciiWsB c = false) →
    splitWsGo l acc = if (acc.reverse ++ l).isEmpty then [] else [acc.reverse ++ l] := by
  intro l
  induction l with
  | nil => intro acc _; simp [splitWsGo]
  | cons c0 rest ih =>
    intro acc hl
    have hc0 : isAsciiWsB c0 = false := hl c0 (by simp)
    simp only [splitWsGo, hc0]
    rw [if_neg (by simp)]
    rw [ih (c0 :: acc) (fun c hc => hl c (List.mem_cons_of_mem _ hc))]
    simp

theorem joinUnderscore_map (f : Char → Char) (hf : f '_' = '_') :
    ∀ ws : List (List Char),
      List.map f (joinUnderscore ws) = joinUnderscore (ws.map (List.map f)) := by
  intro ws
  induction ws with
  | nil => simp [joinUnderscore]
  | cons w ws ih =>
    match ws with
    | [] => simp [joinUnderscore]
    | w' :: t =>
      simp only [joinUnderscore, List.map_append, List.map_cons, hf, List.map]
      rw [ih]
      simp [joinUnderscore]

theorem keep_not_ws_toLower (c : Char) (h1 : keepChar c = true)
    (h2 : isAsciiWsB c = false) : isOutChar (toLowerChar c) = true := by
  simp only [keepChar, isAsciiB, isAsciiPunctB, isAsciiControlB, Bool.and_eq_true,
    Bool.not_eq_true', Bool.or_eq_false_iff, Bool.and_eq_false_iff,
    decide_eq_true_eq, decide_eq_false_iff_not, beq_eq_false_iff_ne, ne_eq] at h1
  simp only [isAsciiWsB, Bool.or_eq_false_iff, beq_eq_false_iff_ne, ne_eq] at h2
  simp only [isOutChar, Bool.or_eq_true, Bool.and_eq_true, decide_eq_true_eq, beq_iff_eq]
  rw [toNat_toLowerChar]
  by_cases hu : 65 ≤ c.toNat ∧ c.toNat ≤ 90
  · rw [if_pos hu]; omega
  · rw [if_neg hu]; omega

theorem normalize_chars (s : List Char) :
    ∀ c ∈ normalize_location_str s, isOutChar c = true := by
  intro c hc
  unfold normalize_location_str at hc
  rw [List.mem_map] at hc
  obtain ⟨c', hc', rfl⟩ := hc
  rcases joinUnderscore_chars _ c' hc' with ⟨w, hw, hcw⟩ | h
  · have := splitWsGo_chars _ [] (by simp) w hw c' hcw
    rcases this with ⟨hmem | hmem, hws⟩
    · rw [List.mem_filter] at hmem
      exact keep_not_ws_toLower c' hmem.2 hws
    · simp at hmem
  · subst h; decide

theorem isOutChar_toNat (c : Char) (h : isOutChar c = true) :
    (48 ≤ c.toNat ∧ c.toNat ≤ 57) ∨ (97 ≤ c.toNat ∧ c.toNat ≤ 122) ∨ c.toNat = 95 := by
  simp only [isOutChar, Bool.or_eq_true, Bool.and_eq_true, decide_eq_true_eq,
    beq_iff_eq] at h
  tauto

theorem nfkdChar_eq_of_ascii (c : Char) (h : c.toNat ≤ 127) : nfkdChar c = [c] := by
  unfold nfkdChar
  rw [if_pos h]

theorem decomposeNFKD_eq_self (l : List Char) (h : ∀ c ∈ l, c.toNat ≤ 127) :
    decomposeNFKD l = l := by
  induction l with
  | nil => rfl
  | cons c rest ih =>
    simp only [decomposeNFKD]
    rw [nfkdChar_eq_of_ascii c (h c (by simp)),
      ih (fun x hx => h x (List.mem_cons_of_mem _ hx))]
    rfl

theorem map_id_of_fixed {α : Type} (f : α → α) (l : List α) (h : ∀ x ∈ l, f x = x) :
    List.map f l = l := by
  induction l with
  | nil => rfl
  | cons x rest ih =>
    simp only [List.map_cons]
    rw [h x (by simp), ih (fun y hy => h y (List.mem_cons_of_mem _ hy))]

theorem keepChar_eq_ne_underscore (c : Char) (h : isOutChar c = true) :
    keepChar c = decide (c ≠ '_') := by
  rcases isOutChar_toNat c h with h | h | h
  · have hne : c ≠ '_' := by
      intro hc'
      subst hc'
      simp at h
    have hkeep : keepChar c = true := by
      simp only [keepChar, isAsciiB, isAsciiPunctB, isAsciiControlB, Bool.and_eq_true,
        Bool.not_eq_true', Bool.or_eq_false_iff, Bool.and_eq_false_iff,
        decide_eq_true_eq, decide_eq_false_iff_not, beq_eq_false_iff_ne, ne_eq]
      omega
    rw [hkeep]
    simp [hne]
  · have hne : c ≠ '_' := by
      intro hc'
      subst hc'
      simp at h
    have hkeep : keepChar c = true := by
      simp only [keepChar, isAsciiB, isAsciiPunctB, isAsciiControlB, Bool.and_eq_true,
        Bool.not_eq_true', Bool.or_eq_false_iff, Bool.and_eq_false_iff,
        decide_eq_true_eq, decide_eq_false_iff_not, beq_eq_false_iff_ne, ne_eq]
      omega
    rw [hkeep]
    simp [hne]
  · have : c = '_' := char_eq_of_toNat (by rw [h]; rfl)
    subst this
    decide

theorem keepChar_eq_amended (c : Char) : keepChar c = (isAsciiAlnumB c || c == ' ') := by
  rw [Bool.eq_iff_iff]
  simp only [keepChar, isAsciiB, isAsciiPunctB, isAsciiControlB, isAsciiAlnumB,
    Bool.and_eq_true, Bool.not_eq_true', Bool.or_eq_true,
    Bool.or_eq_false_iff, Bool.and_eq_false_iff, decide_eq_true_eq,
    decide_eq_false_iff_not, beq_eq_false_iff_ne, ne_eq, beq_iff_eq, char_eq_space_iff]
  omega

theorem location_key_full_ne (c s k : List Char) :
    location_key (some c) (some s) (some k) ≠ location_key (some c) none (some k) := by
  intro h
  have h1 : location_key (some c) (some s) (some k) = c ++ '_' :: (s ++ '_' :: k) := rfl
  have h2 : location_key (some c) none (some k) = c ++ '_' :: k := rfl
  rw [h1, h2] at h
  have := congrArg List.length h
  simp at this
  omega

/-! ## Facts about the Tier-2 scan of `location_finder.rs` -/

theorem containsSub_nil_needle (l : List Char) : containsSub l [] = true := by
  cases l with
  | nil => rfl
  | cons c rest => simp [containsSub, List.isPrefixOf]

theorem tier2_scan_skip_cons (m : LocationFinder.FinderMaps) (state : List Char)
    (cid : Nat) (rest : List Nat) (acc : List LocationFinder.LocationMatchType)
    (h : LocationFinder.IsSkipped m cid) :
    LocationFinder.tier2_scan m state (cid :: rest) acc =
      LocationFinder.tier2_scan m state rest acc := by
  obtain ⟨cr, kr, hcr, hkr, hskip⟩ := h
  simp only [LocationFinder.tier2_scan, hcr, hkr, hskip, if_true]

theorem tier2_scan_skip_front (m : LocationFinder.FinderMaps) (state : List Char) :
    ∀ (pre l : List Nat) (acc : List LocationFinder.LocationMatchType),
      (∀ x ∈ pre, LocationFinder.IsSkipped m x) →
      LocationFinder.tier2_scan m state (pre ++ l) acc =
        LocationFinder.tier2_scan m state l acc := by
  intro pre
  induction pre with
  | nil => intro l acc _; rfl
  | cons x t ih =>
    intro l acc hpre
    rw [List.cons_append, tier2_scan_skip_cons m state x (t ++ l) acc (hpre x (by simp))]
    exact ih l acc (fun y hy => hpre y (List.mem_cons_of_mem _ hy))

theorem tier2_scan_all_partial_cands (m : LocationFinder.FinderMaps) (state : List Char) :
    ∀ (l : List Nat) (acc : List LocationFinder.LocationMatchType),
      (∀ cid ∈ l, LocationFinder.IsPartialCand m state cid) →
      LocationFinder.tier2_scan m state l acc =
        (match acc ++ l.map (LocationFinder.partialOf m) with
          | [p] => some p
          | _ => some .NoMatch) := by
  intro l
  induction l with
  | nil => intro acc _; simp [LocationFinder.tier2_scan]
  | cons cid rest ih =>
    intro acc hall
    obtain ⟨cr, kr, sr, hcr, hkr, hskip, hover, hsr, hsub1, hsub2⟩ := hall cid (by simp)
    simp only [LocationFinder.tier2_scan, hcr, hkr, hskip, hover, hsr, hsub1, hsub2,
      Bool.false_eq_true, if_false, Bool.or_self]
    rw [ih (acc ++ [LocationFinder.LocationMatchType.PartialMatch cr.id cr.country_id cr.state_id])
      (fun x hx => hall x (List.mem_cons_of_mem _ hx))]
    have hpo : LocationFinder.partialOf m cid = .PartialMatch cr.id cr.country_id cr.state_id := by
      simp [LocationFinder.partialOf, hcr]
    simp [hpo, List.append_assoc]

theorem tier2_scan_all_skip (m : LocationFinder.FinderMaps) (state : List Char) :
    ∀ (l : List Nat) (acc : List LocationFinder.LocationMatchType),
      (∀ cid ∈ l, LocationFinder.IsSkipped m cid) →
      LocationFinder.tier2_scan m state l acc =
        LocationFinder.tier2_scan m state [] acc := by
  intro l
  induction l with
  | nil => intro acc _; rfl
  | cons cid rest ih =>
    intro acc hall
    rw [tier2_scan_skip_cons m state cid rest acc (hall cid (by simp))]
    exact ih acc (fun x hx => hall x (List.mem_cons_of_mem _ hx))

theorem tier2_scan_empty_state (m : LocationFinder.FinderMaps) :
    ∀ (l : List Nat) (acc : List LocationFinder.LocationMatchType),
      (∀ cid ∈ l, ∃ cr kr sr, m.city_id_map cid = some cr ∧
        m.country_id_map cr.country_id = some kr ∧ m.state_id_map cr.state_id = some sr) →
      (∃ cid ∈ l, ∃ cr kr, m.city_id_map cid = some cr ∧
        m.country_id_map cr.country_id = some kr ∧
        countries_to_skip.contains kr.name = false) →
      ∃ c s k, LocationFinder.tier2_scan m [] l acc =
        some (.FullMatch c s k) := by
  intro l
  induction l with
  | nil =>
    intro acc _ hex
    obtain ⟨cid, hmem, _⟩ := hex
    simp at hmem
  | cons cid rest ih =>
    intro acc hres hex
    obtain ⟨cr, kr, sr, hcr, hkr, hsr⟩ := hres cid (by simp)
    by_cases hskip : countries_to_skip.contains kr.name = true
    · rw [tier2_scan_skip_cons m [] cid rest acc ⟨cr, kr, hcr, hkr, hskip⟩]
      apply ih acc (fun x hx => hres x (List.mem_cons_of_mem _ hx))
      obtain ⟨cid', hmem, cr', kr', hcr', hkr', hsk'⟩ := hex
      rcases List.mem_cons.mp hmem with hmem | hmem
      · subst hmem
        rw [hcr] at hcr'
        injection hcr' with hcr'
        subst hcr'
        rw [hkr] at hkr'
        injection hkr' with hkr'
        subst hkr'
        rw [hskip] at hsk'
        exact absurd hsk' (by simp)
      · exact ⟨cid', hmem, cr', kr', hcr', hkr', hsk'⟩
    · have hskipf : countries_to_skip.contains kr.name = false := by
        exact Bool.eq_false_iff.mpr hskip
      by_cases hover : countries_to_override.contains kr.name = true
      · refine ⟨cr.id, cr.state_id, cr.country_id, ?_⟩
        simp only [LocationFinder.tier2_scan, hcr, hkr, hskipf, hover,
          Bool.false_eq_true, if_false, if_true]
      · have hoverf : countries_to_override.contains kr.name = false := by
          exact Bool.eq_false_iff.mpr hover
        refine ⟨cr.id, cr.state_id, cr.country_id, ?_⟩
        simp only [LocationFinder.tier2_scan, hcr, hkr, hskipf, hoverf,
          Bool.false_eq_true, if_false, hsr, containsSub_nil_needle, Bool.true_or, if_true]

theorem find_location_tier2 (m : LocationFinder.FinderMaps)
    (city_in state_in country_in : List Char) (l : List Nat)
    (h1 : LocationFinder.Tier1Miss m city_in state_in country_in)
    (hl : m.city_name_map (LocationFinder.tier2_key city_in country_in) = some l) :
    LocationFinder.find_location m city_in state_in country_in =
      LocationFinder.tier2_scan m (normalize_location_str state_in) l [] := by
  simp only [LocationFinder.tier2_key] at hl
  rcases h1 with h1 | h1 <;>
    · simp only [LocationFinder.find_location, h1, hl]

/-! ## Facts about the loader (`location_records_loader.rs`) -/

theorem mem_pairs_foldl {α : Type} :
    ∀ (l : List (α × α)) (acc : List (α × α)) (x : α × α),
      (x ∈ l.foldl (fun s p => (p.1, p.2) :: (p.2, p.1) :: s) acc ↔
        x ∈ acc ∨ ∃ p ∈ l, x = (p.1, p.2) ∨ x = (p.2, p.1)) := by
  intro l
  induction l with
  | nil => simp
  | cons q t ih =>
    intro acc x
    simp only [List.foldl_cons]
    rw [ih]
    simp only [List.mem_cons, List.exists_mem_cons_iff]
    aesop

theorem state_names_vec_mem_set (p : List Char × List Char)
    (h : p ∈ LocationRecordsLoader.state_names_vec) :
    (p.1, p.2) ∈ LocationRecordsLoader.partial_match_state_names ∧
      (p.2, p.1) ∈ LocationRecordsLoader.partial_match_state_names := by
  unfold LocationRecordsLoader.partial_match_state_names
  rw [mem_pairs_foldl, mem_pairs_foldl]
  exact ⟨Or.inr ⟨p, h, Or.inl rfl⟩, Or.inr ⟨p, h, Or.inr rfl⟩⟩

theorem load_records_loop_dup {α : Type} (idOf : α → Nat) (nameOf : α → List Char) :
    ∀ (rows : List (Option α)) (id_map : List (Nat × α)) (name_map : List (List Char × α)),
      ((∃ x, (LocationRecordsLoader.mapLookup id_map x).isSome = true ∧
          x ∈ (rows.filterMap (fun o => o)).map idOf) ∨
        (∃ x, 2 ≤ ((rows.filterMap (fun o => o)).map idOf).count x)) →
      LocationRecordsLoader.load_records_loop idOf nameOf rows id_map name_map =
        .error .Loader := by
  intro rows
  induction rows with
  | nil =>
    intro idm nm h
    rcases h with ⟨x, _, hx⟩ | ⟨x, hx⟩ <;> simp at hx
  | cons row rest ih =>
    intro idm nm h
    match row with
    | none =>
      simp only [LocationRecordsLoader.load_records_loop]
      apply ih
      simpa using h
    | some r =>
      simp only [LocationRecordsLoader.load_records_loop]
      by_cases hprev : (LocationRecordsLoader.mapLookup idm (idOf r)).isSome = true
      · rw [if_pos hprev]
      · rw [if_neg hprev]
        apply ih
        have hfm : (some r :: rest).filterMap (fun o : Option α => o) =
            r :: rest.filterMap (fun o => o) := rfl
        rcases h with ⟨x, hxm, hxmem⟩ | ⟨x, hcnt⟩
        · rw [hfm, List.map_cons, List.mem_cons] at hxmem
          rcases hxmem with hxe | hxmem
          · exact absurd (hxe ▸ hxm) hprev
          · refine Or.inl ⟨x, ?_, hxmem⟩
            have hne : x ≠ idOf r := fun he => absurd (he ▸ hxm) hprev
            simpa [LocationRecordsLoader.mapLookup, hne] using hxm
        · rw [hfm, List.map_cons, List.count_cons] at hcnt
          by_cases hx : idOf r = x
          · subst hx
            have hmem : idOf r ∈ (rest.filterMap (fun o => o)).map idOf := by
              have : 1 ≤ ((rest.filterMap (fun o => o)).map idOf).count (idOf r) := by
                rw [beq_self_eq_true, if_pos rfl] at hcnt
                omega
              exact List.count_pos_iff.mp this
            refine Or.inl ⟨idOf r, ?_, hmem⟩
            simp [LocationRecordsLoader.mapLookup]
          · refine Or.inr ⟨x, ?_⟩
            have : ((idOf r : Nat) == x) = false := by
              simp [hx]
            rw [this] at hcnt
            simpa using hcnt

theorem splitOnCommaGo_no_comma : ∀ (l acc : List Char), ',' ∉ l →
    splitOnCommaGo l acc = [acc.reverse ++ l] := by
  intro l
  induction l with
  | nil => intro acc _; simp [splitOnCommaGo]
  | cons c rest ih =>
    intro acc hnc
    have hc : ¬(c = ',') := fun he => hnc (he ▸ List.mem_cons_self c rest)
    simp only [splitOnCommaGo, if_neg hc]
    rw [ih (c :: acc) (fun hm => hnc (List.mem_cons_of_mem _ hm))]
    simp

theorem splitOnCommaTrim_no_comma (l : List Char) (h : ',' ∉ l) :
    splitOnCommaTrim l = [trimWs l] := by
  unfold splitOnCommaTrim splitOnComma
  rw [splitOnCommaGo_no_comma l [] h]
  rfl

theorem process_city_alias_none (d : LocationFinder.FinderData)
    (city_record : LocationCity) (s : List (List Char)) (al : List Char)
    (hnc : ',' ∉ al) :
    LocationFinder.process_city_alias d city_record s al = none := by
  unfold LocationFinder.process_city_alias
  rw [splitOnCommaTrim_no_comma al hnc]
  simp only [List.get?]
  by_cases h : city_record.name ≠ trimWs al
  · rw [if_pos h]
  · rw [if_neg h]

theorem foldlM_option_cons {α β : Type} (f : β → α → Option β) (b : β) (x : α)
    (l : List α) :
    (x :: l).foldlM f b = (f b x).bind (fun b' => l.foldlM f b') := rfl

theorem foldlM_option_none {α β : Type} (f : β → α → Option β) :
    ∀ (l : List α) (b : β) (a : α), a ∈ l → (∀ b', f b' a = none) →
      l.foldlM f b = none := by
  intro l
  induction l with
  | nil => intro b a ha; simp at ha
  | cons x rest ih =>
    intro b a ha hf
    rw [foldlM_option_cons]
    rcases List.mem_cons.mp ha with ha | ha
    · subst ha
      rw [hf b]
      rfl
    · cases hfx : f b x with
      | none => rfl
      | some b' =>
        simp only [Option.some_bind]
        exact ih b' a ha hf

theorem process_city_none (d : LocationFinder.FinderData) (city_record : LocationCity)
    (als : List (List Char)) (al : List Char)
    (hals : d.place_alias_map (LocationFinder.city_alias_lookup_key city_record) = some als)
    (hal : al ∈ als) (hnc : ',' ∉ al) :
    LocationFinder.process_city d city_record = none := by
  have hfold : ∀ b, als.foldlM (fun s a => LocationFinder.process_city_alias d city_record s a) b = none :=
    fun b => foldlM_option_none _ als b al hal
      (fun b' => process_city_alias_none d city_record b' al hnc)
  unfold LocationFinder.process_city
  cases hbase : LocationFinder.list_city_location_keys d city_record none none with
  | none => rfl
  | some base_keys =>
    simp only [hals, hfold]

theorem init_city_name_map_none (d : LocationFinder.FinderData) (city_record : LocationCity)
    (hcr : city_record ∈ d.cities)
    (hproc : LocationFinder.process_city d city_record = none) :
    LocationFinder.init_city_name_map d = none := by
  unfold LocationFinder.init_city_name_map
  apply foldlM_option_none _ d.cities [] city_record hcr
  intro b'
  simp only [hproc]

theorem tier1_miss_of_city_country_map (m : LocationFinder.FinderMaps)
    (ci si ki : List Char) (l : List Nat)
    (hmap : m.city_name_map =
      fun key => if key = LocationFinder.tier2_key ci ki then some l else none) :
    LocationFinder.Tier1Miss m ci si ki := by
  left
  rw [hmap]
  exact if_neg (location_key_full_ne _ _ _)

/-! ## The claims -/

/-- C1: for an input whose Tier-2 (city+country key) lookup yields
candidates that are all recorded as partial-match candidates (country in
neither list, no substring relation between the normalized states),
`find_location` of `location_finder.rs` returns NoMatch when there are two
or more candidates, and returns the single candidate as the PartialMatch
when there is exactly one. -/
theorem C1_tier2_ambiguity (m : LocationFinder.FinderMaps)
    (city_in state_in country_in : List Char) (l : List Nat)
    (h1 : LocationFinder.Tier1Miss m city_in state_in country_in)
    (hl : m.city_name_map (LocationFinder.tier2_key city_in country_in) = some l)
    (hall : ∀ cid ∈ l,
      LocationFinder.IsPartialCand m (normalize_location_str state_in) cid) :
    (2 ≤ l.length →
      LocationFinder.find_location m city_in state_in country_in = some .NoMatch) ∧
    (∀ cid cr, l = [cid] → m.city_id_map cid = some cr →
      LocationFinder.find_location m city_in state_in country_in =
        some (.PartialMatch cr.id cr.country_id cr.state_id)) := by
  constructor
  · intro hlen
    rw [find_location_tier2 m city_in state_in country_in l h1 hl,
      tier2_scan_all_partial_cands m _ l [] hall]
    rcases l with _ | ⟨a, _ | ⟨b, t⟩⟩
    · simp at hlen
    · simp at hlen
    · simp
  · intro cid cr hcid hcr
    subst hcid
    rw [find_location_tier2 m city_in state_in country_in [cid] h1 hl,
      tier2_scan_all_partial_cands m _ [cid] [] hall]
    simp [LocationFinder.partialOf, hcr]

/-- C1 witness: two same-named Italian cities in different states with an
unrelated input state yield NoMatch. -/
theorem C1_tier2_ambiguity_witness :
    LocationFinder.find_location mW1 "Duplicate".data "Zzz".data "Italy".data =
      some .NoMatch :=
  (C1_tier2_ambiguity mW1 "Duplicate".data "Zzz".data "Italy".data [101, 102]
    (tier1_miss_of_city_country_map mW1 "Duplicate".data "Zzz".data "Italy".data [101, 102] rfl)
    rfl
    (by
      intro cid hcid
      rcases List.mem_cons.mp hcid with h | h
      · subst h
        exact ⟨witCityA, witIT, witLombardia, rfl, rfl, by decide, by decide, rfl,
          by decide, by decide⟩
      · rcases List.mem_cons.mp h with h | h
        · subst h
          exact ⟨witCityB, witIT, witPiemonte, rfl, rfl, by decide, by decide, rfl,
            by decide, by decide⟩
        · simp at h)).1 (by decide)

/-- C2: the claim that normalization is idempotent is false on the code:
the underscore that the first pass inserts between words is ASCII
punctuation, so a second pass strips it.  At "a b" the first application
yields "a_b" and reapplying yields "ab". -/
theorem C2_not_idempotent_cex :
    normalize_location_str "a b".data = "a_b".data ∧
      normalize_location_str "a_b".data = "ab".data ∧
      normalize_location_str (normalize_location_str "a b".data) ≠
        normalize_location_str "a b".data := by
  decide

/-- C2 (amended): a second application of the normalizer removes exactly
the underscores of the first result, so normalization is idempotent
precisely on inputs whose normal form is a single word. -/
theorem C2_normalize_normalize (s : List Char) :
    normalize_location_str (normalize_location_str s) =
      (normalize_location_str s).filter (fun c => c ≠ '_') := by
  have hchars := normalize_chars s
  set t := normalize_location_str s with ht
  have hascii : ∀ c ∈ t, c.toNat ≤ 127 := by
    intro c hc
    rcases isOutChar_toNat c (hchars c hc) with h | h | h <;> omega
  conv_lhs => rw [normalize_location_str]
  rw [decomposeNFKD_eq_self t hascii]
  rw [List.filter_congr (fun c hc => keepChar_eq_ne_underscore c (hchars c hc))]
  set t' := t.filter (fun c => decide (c ≠ '_')) with ht'
  have ht'chars : ∀ c ∈ t',
      (48 ≤ c.toNat ∧ c.toNat ≤ 57) ∨ (97 ≤ c.toNat ∧ c.toNat ≤ 122) := by
    intro c hc
    rw [ht', List.mem_filter] at hc
    have h95 : c.toNat ≠ 95 := by
      intro hc'
      have : c = '_' := char_eq_of_toNat (by rw [hc']; rfl)
      subst this
      simp at hc
    rcases isOutChar_toNat c (hchars c hc.1) with h | h | h
    · exact Or.inl h
    · exact Or.inr h
    · exact absurd h h95
  have ht'ws : ∀ c ∈ t', isAsciiWsB c = false := by
    intro c hc
    rcases ht'chars c hc with h | h <;>
      simp only [isAsciiWsB, Bool.or_eq_false_iff, beq_eq_false_iff_ne, ne_eq] <;> omega
  rw [show splitWs t' = splitWsGo t' [] from rfl, splitWsGo_no_ws t' [] ht'ws]
  match hemp : t' with
  | [] => simp [joinUnderscore]
  | c0 :: rest =>
    rw [if_neg (by simp)]
    simp only [List.reverse_nil, List.nil_append]
    rw [show joinUnderscore [c0 :: rest] = c0 :: rest from rfl]
    apply map_id_of_fixed
    intro x hx
    apply toLowerChar_eq_self_of_not_upper
    rcases ht'chars x (hemp ▸ hx) with h | h <;> omega

/-- C3: a skip-listed Tier-2 candidate is discarded before any other rule
is applied (the scan is unchanged by its presence at the head), and when
every Tier-2 candidate is skip-listed `find_location` returns NoMatch. -/
theorem C3_skip_list_suppression :
    (∀ (m : LocationFinder.FinderMaps) (state : List Char) (cid : Nat)
        (rest : List Nat) (acc : List LocationFinder.LocationMatchType),
      LocationFinder.IsSkipped m cid →
      LocationFinder.tier2_scan m state (cid :: rest) acc =
        LocationFinder.tier2_scan m state rest acc) ∧
    (∀ (m : LocationFinder.FinderMaps) (city_in state_in country_in : List Char)
        (l : List Nat),
      LocationFinder.Tier1Miss m city_in state_in country_in →
      m.city_name_map (LocationFinder.tier2_key city_in country_in) = some l →
      (∀ cid ∈ l, LocationFinder.IsSkipped m cid) →
      LocationFinder.find_location m city_in state_in country_in = some .NoMatch) := by
  constructor
  · exact fun m state cid rest acc h => tier2_scan_skip_cons m state cid rest acc h
  · intro m ci si ki l h1 hl hall
    rw [find_location_tier2 m ci si ki l h1 hl, tier2_scan_all_skip m _ l [] hall]
    rfl

/-- C3 witness: a United States city with a wrong state yields NoMatch. -/
theorem C3_skip_list_suppression_witness :
    LocationFinder.find_location mW3 "Somecity".data "Wrongstate".data
      "United States".data = some .NoMatch :=
  C3_skip_list_suppression.2 mW3 _ _ _ [103]
    (tier1_miss_of_city_country_map mW3 "Somecity".data "Wrongstate".data
      "United States".data [103] rfl)
    rfl
    (by
      intro cid hcid
      rcases List.mem_cons.mp hcid with h | h
      · subst h
        exact ⟨witCityUS, witUSc, rfl, rfl, by decide⟩
      · simp at h)

/-- C4: a Tier-2 candidate in an override-listed country that the scan
reaches (every earlier candidate is skip-listed) is returned as FullMatch
with its own city, state and country ids, for every input state string. -/
theorem C4_override_list (m : LocationFinder.FinderMaps)
    (city_in country_in : List Char) (pre post : List Nat) (cid : Nat)
    (cr : LocationCity) (kr : LocationCountry)
    (h1 : ∀ state_in, LocationFinder.Tier1Miss m city_in state_in country_in)
    (hl : m.city_name_map (LocationFinder.tier2_key city_in country_in) =
      some (pre ++ cid :: post))
    (hpre : ∀ x ∈ pre, LocationFinder.IsSkipped m x)
    (hcr : m.city_id_map cid = some cr)
    (hkr : m.country_id_map cr.country_id = some kr)
    (hover : countries_to_override.contains kr.name = true)
    (hskip : countries_to_skip.contains kr.name = false) :
    ∀ state_in, LocationFinder.find_location m city_in state_in country_in =
      some (.FullMatch cr.id cr.state_id cr.country_id) := by
  intro state_in
  rw [find_location_tier2 m city_in state_in country_in _ (h1 state_in) hl,
    tier2_scan_skip_front m _ pre (cid :: post) [] hpre]
  simp only [LocationFinder.tier2_scan, hcr, hkr, hskip, hover, Bool.false_eq_true,
    if_false, if_true]

/-- C4 witness: a United Kingdom city with an arbitrary state string is a
FullMatch. -/
theorem C4_override_list_witness :
    LocationFinder.find_location mW4 "York".data "Wrongshire".data
      "United Kingdom".data = some (.FullMatch 104 22 2) :=
  C4_override_list mW4 "York".data "United Kingdom".data [] [] 104 witCityUK witUK
    (fun si => tier1_miss_of_city_country_map mW4 "York".data si
      "United Kingdom".data [104] rfl)
    rfl
    (by intro x hx; simp at hx)
    rfl rfl (by decide) (by decide)
    "Wrongshire".data

/-- C5: the spec's description of the normalizer is refuted on two points:
the code decomposes with NFKD (compatibility), not canonical form (the
superscript two becomes the digit 2 instead of being dropped), and ASCII
tab and newline are removed by the control-character filter before word
splitting instead of acting as word boundaries. -/
theorem C5_description_cex :
    normalize_location_str "a\tb".data = "ab".data ∧
      normalize_claimed "a\tb".data = "a_b".data ∧
      normalize_location_str ['x', '²'] = "x2".data ∧
      normalize_claimed ['x', '²'] = ['x'] ∧
      normalize_location_str "a\tb".data ≠ normalize_claimed "a\tb".data := by
  decide

/-- C5 (amended): the normalizer NFKD-decomposes, keeps exactly the ASCII
letters, digits and spaces, splits into words on the remaining spaces,
lower-cases and joins with underscores; the empty input yields the empty
string. -/
theorem C5_description_amended (s : List Char) :
    normalize_location_str s = normalize_amended s ∧
      normalize_location_str [] = [] := by
  refine ⟨?_, rfl⟩
  unfold normalize_location_str normalize_amended
  rw [List.filter_congr (fun c _ => keepChar_eq_amended c)]
  rw [joinUnderscore_map toLowerChar (by decide)]

/-- C6: the alias-equivalence table of `location_records_loader.rs`
contains the swap of each of its pairs, and the Tier-2 per-candidate step
accepts a candidate as FullMatch whenever the (normalized input state,
normalized canonical state) pair matches a base table pair in either
orientation. -/
theorem C6_alias_bidirectional :
    (∀ p ∈ LocationRecordsLoader.partial_match_state_names,
      (p.2, p.1) ∈ LocationRecordsLoader.partial_match_state_names) ∧
    (∀ (st : LocationRecordsLoader.LoaderState) (g : Nat → Option LocationState)
        (state : List Char) (city : LocationCity) (country : LocationCountry)
        (us : LocationState) (a b : List Char),
      (a, b) ∈ LocationRecordsLoader.state_names_vec →
      st.state_id_map = some g →
      g city.state_id = some us →
      countries_to_skip.contains country.name = false →
      countries_to_override.contains country.name = false →
      city.country_id = country.id →
      containsSub (normalize_location_str us.name) state = false →
      containsSub state (normalize_location_str us.name) = false →
      ((state = a ∧ normalize_location_str us.name = b) ∨
        (state = b ∧ normalize_location_str us.name = a)) →
      LocationRecordsLoader.tier2_step st state city country =
        .ok (some (.FullMatch city.id city.state_id country.id))) := by
  constructor
  · intro p hp
    unfold LocationRecordsLoader.partial_match_state_names at hp ⊢
    rw [mem_pairs_foldl] at hp
    rw [mem_pairs_foldl]
    rcases hp with hp | ⟨q, hq, hpq | hpq⟩
    · simp at hp
    · exact Or.inr ⟨q, hq, Or.inr (by rw [hpq])⟩
    · exact Or.inr ⟨q, hq, Or.inl (by rw [hpq])⟩
  · intro st g state city country us a b hvec hg hus hskip hover hcid hsub1 hsub2 hor
    have hmem : (state, normalize_location_str us.name) ∈
        LocationRecordsLoader.partial_match_state_names := by
      rcases hor with ⟨hs, hu⟩ | ⟨hs, hu⟩
      · rw [hs, hu]
        exact (state_names_vec_mem_set (a, b) hvec).1
      · rw [hs, hu]
        exact (state_names_vec_mem_set (a, b) hvec).2
    simp only [LocationRecordsLoader.tier2_step, hskip, Bool.false_eq_true, if_false,
      hcid, hover, LocationRecordsLoader.find_state_by_id, hg, hus, hsub1, hsub2,
      Bool.or_self, hmem, if_true, ite_true]

/-- C6 witness: a Milan record whose canonical state is Lombardia is a
FullMatch for the input state Lombardy. -/
theorem C6_alias_bidirectional_witness :
    LocationRecordsLoader.tier2_step stW6 (normalize_location_str "Lombardy".data)
      witMilan witIT = .ok (some (.FullMatch 105 20 3)) :=
  C6_alias_bidirectional.2 stW6 (fun i => if i = 20 then some witLombardia else none)
    (normalize_location_str "Lombardy".data) witMilan witIT witLombardia
    "lombardia".data "lombardy".data
    (by decide)
    rfl rfl (by decide) (by decide) rfl (by decide) (by decide)
    (Or.inr ⟨by decide, by decide⟩)

/-- C7: calling `find_location` of `location_records_loader.rs` before the
dataset was loaded returns the Loader error rather than NoMatch. -/
theorem C7_uninitialized_error (st : LocationRecordsLoader.LoaderState)
    (city_in state_in country_in : List Char)
    (h : st.city_name_map = none) :
    LocationRecordsLoader.find_location st city_in state_in country_in =
      .error .Loader := by
  simp only [LocationRecordsLoader.find_location, h]

/-- C7 witness: the fully uninitialized state errors on any lookup. -/
theorem C7_uninitialized_error_witness :
    LocationRecordsLoader.find_location stW7 "Paris".data "Ile-de-France".data
      "France".data = .error .Loader :=
  C7_uninitialized_error stW7 "Paris".data "Ile-de-France".data "France".data rfl

/-- C8: a row list containing two records with the same id makes
`load_records` fail with the Loader error, and both statics remain unset
(no partial state is published). -/
theorem C8_duplicate_id {α : Type} (idOf : α → Nat) (nameOf : α → List Char)
    (rows : List (Option α))
    (h : ∃ x, 2 ≤ ((rows.filterMap (fun o => o)).map idOf).count x) :
    LocationRecordsLoader.load_records idOf nameOf rows none none =
      (.error .Loader, none, none) := by
  unfold LocationRecordsLoader.load_records
  rw [load_records_loop_dup idOf nameOf rows [] [] (Or.inr h)]

/-- C8 witness: loading the same city record twice fails with Loader and
publishes nothing. -/
theorem C8_duplicate_id_witness :
    LocationRecordsLoader.load_records LocationCity.id LocationCity.name
      [some witCityA, some witCityA] none none = (.error .Loader, none, none) :=
  C8_duplicate_id LocationCity.id LocationCity.name [some witCityA, some witCityA]
    ⟨101, by decide⟩

/-- C9: if any city's alias list contains a city-level alternate name
without a comma, `init_city_name_map` reads element 1 of a one-element
vector and panics, so index construction is partial. -/
theorem C9_alias_index_panics (d : LocationFinder.FinderData)
    (city_record : LocationCity) (als : List (List Char)) (al : List Char)
    (hcr : city_record ∈ d.cities)
    (hals : d.place_alias_map (LocationFinder.city_alias_lookup_key city_record) =
      some als)
    (hal : al ∈ als) (hnc : ',' ∉ al) :
    LocationFinder.init_city_name_map d = none :=
  init_city_name_map_none d city_record hcr
    (process_city_none d city_record als al hals hal hnc)

/-- C9 witness: the alias "Bombay" (no comma) for Mumbai makes index
construction panic. -/
theorem C9_alias_index_panics_witness :
    LocationFinder.init_city_name_map dW9 = none :=
  C9_alias_index_panics dW9 witMumbai ["Bombay".data] "Bombay".data
    (List.mem_cons_self _ _) rfl (List.mem_cons_self _ _) (by decide)

/-- C10: when the normalized input state is empty, every resolvable
non-skip-listed Tier-2 candidate is accepted as FullMatch through the
substring rule (the empty string is a substring of every state name), so
the finder returns a FullMatch, never a PartialMatch, as soon as one such
candidate exists. -/
theorem C10_empty_state (m : LocationFinder.FinderMaps)
    (city_in state_in country_in : List Char) (l : List Nat)
    (hempty : normalize_location_str state_in = [])
    (h1 : LocationFinder.Tier1Miss m city_in state_in country_in)
    (hl : m.city_name_map (LocationFinder.tier2_key city_in country_in) = some l)
    (hres : ∀ cid ∈ l, ∃ cr kr sr, m.city_id_map cid = some cr ∧
      m.country_id_map cr.country_id = some kr ∧ m.state_id_map cr.state_id = some sr)
    (hex : ∃ cid ∈ l, ∃ cr kr, m.city_id_map cid = some cr ∧
      m.country_id_map cr.country_id = some kr ∧
      countries_to_skip.contains kr.name = false) :
    ∃ c s k, LocationFinder.find_location m city_in state_in country_in =
      some (.FullMatch c s k) := by
  rw [find_location_tier2 m city_in state_in country_in l h1 hl, hempty]
  exact tier2_scan_empty_state m l [] hres hex

/-- C10 witness: an empty state input against the two Italian candidates
still produces a FullMatch. -/
theorem C10_empty_state_witness :
    ∃ c s k, LocationFinder.find_location mW1 "Duplicate".data [] "Italy".data =
      some (.FullMatch c s k) :=
  C10_empty_state mW1 "Duplicate".data [] "Italy".data [101, 102]
    rfl
    (tier1_miss_of_city_country_map mW1 "Duplicate".data [] "Italy".data [101, 102] rfl)
    rfl
    (by
      intro cid hcid
      rcases List.mem_cons.mp hcid with h | h
      · subst h
        exact ⟨witCityA, witIT, witLombardia, rfl, rfl, rfl⟩
      · rcases List.mem_cons.mp h with h | h
        · subst h
          exact ⟨witCityB, witIT, witPiemonte, rfl, rfl, rfl⟩
        · simp at h)
    ⟨101, by simp, witCityA, witIT, rfl, rfl, by decide⟩
